import Mathlib

/-!
Verification development for the brightness repository (two Python source
files: brightness.py, the MQTT irradiance publisher, and healthcheck.py,
the container health probe).  The code is shallowly embedded: pure control
flow becomes Lean functions, the network and clock become explicit oracle
inputs, floats become rationals, and side effects (publishes, log lines,
file writes) become explicit effect lists.
-/

/-! ## Health-check process (healthcheck.py) -/

/-- Whitespace characters removed by Python str.strip (ASCII subset). -/
def isPySpace (c : Char) : Bool :=
  c == ' ' || c == '\t' || c == '\n' || c == '\r' || c == Char.ofNat 11 || c == Char.ofNat 12

/-- Model of Python str.strip with no arguments: drop leading and trailing
whitespace. -/
def pyStrip (s : String) : String :=
  String.mk (((s.toList.dropWhile isPySpace).reverse.dropWhile isPySpace).reverse)

/-- Numeric value of a list of decimal digit characters. -/
def decDigitsVal (l : List Char) : ℕ :=
  l.foldl (fun n c => 10 * n + (c.toNat - 48)) 0

/-- Model of the Python float() builtin on plain decimal literals: an
optional sign, digits, and an optional fractional part after one dot.
Returns none when the string is not such a literal, modelling the
ValueError that float() raises there.  The heartbeat writer only ever
writes str(time.time()), a plain decimal, so this covers every string the
two processes exchange. -/
def parseFloat (s : String) : Option ℚ :=
  let cs := s.toList
  let sign : ℚ := if cs.head? = some '-' then -1 else 1
  let cs := if cs.head? = some '-' ∨ cs.head? = some '+' then cs.tail else cs
  let ip := cs.takeWhile (fun c => c ≠ '.')
  let rest := cs.dropWhile (fun c => c ≠ '.')
  if ip.all Char.isDigit then
    match rest with
    | [] =>
        if ip = [] then none
        else some (sign * decDigitsVal ip)
    | _ :: fp =>
        if fp.all Char.isDigit ∧ (ip ≠ [] ∨ fp ≠ []) then
          some (sign * ((decDigitsVal ip : ℚ) + (decDigitsVal fp : ℚ) / (10 : ℚ) ^ fp.length))
        else none
  else none

/-- Environment of one health-check run (healthcheck.py main): whether the
heartbeat file exists, its content (none models read_text raising), the
current wall-clock time, HEALTH_MAX_AGE_SECONDS, whether HEALTHCHECK_TCP
equals "1", the stripped MQTT_HOST value, and whether a TCP connection to
the broker can be established. -/
structure HealthEnv where
  hbExists : Bool
  hbRead : Option String
  now : ℚ
  maxAge : ℤ
  tcpEnabled : Bool
  mqttHost : String
  tcpReachable : Bool

/-- Diagnostic printed on stderr by the fail helper of healthcheck.py, one
constructor per call site of fail in main. -/
inductive HCDiag
  | noHeartbeat
  | badHeartbeat
  | staleHeartbeat
  | tcpUnreachable
deriving DecidableEq, Repr

/-- Parsed heartbeat value: float((hb_path.read_text() or "").strip() or "0"),
with none when the read raised or the parse failed (both are caught by the
same try/except in healthcheck.py). -/
def hbLast (r : Option String) : Option ℚ :=
  match r with
  | none => none
  | some c =>
      let s := pyStrip c
      parseFloat (if s = "" then "0" else s)

/-- Model of healthcheck.py main: returns the process exit code and the
diagnostic written to stderr, if any.  Every fail call in the source uses
the default code 1. -/
def healthMain (e : HealthEnv) : ℕ × Option HCDiag :=
  if e.hbExists = false then (1, some HCDiag.noHeartbeat)
  else
    match hbLast e.hbRead with
    | none => (1, some HCDiag.badHeartbeat)
    | some last =>
        if e.now - last > (e.maxAge : ℚ) then (1, some HCDiag.staleHeartbeat)
        else if e.tcpEnabled then
          if e.mqttHost ≠ "" then
            if e.tcpReachable then (0, none)
            else (1, some HCDiag.tcpUnreachable)
          else (0, none)
        else (0, none)

/-! ## Location resolver (brightness.py, get_fix_from_gpsd) -/

/-- Fields of one TPV-candidate JSON record received from gpsd, as the
code reads them: the class key, the mode key (int(msg.get("mode") or 0)
maps an absent or zero mode to 0, modelled by Option.getD 0), and the
optional lat, lon, alt values. -/
structure TpvMsg where
  cls : Option String
  mode : Option ℤ
  lat : Option ℚ
  lon : Option ℚ
  alt : Option ℚ
deriving DecidableEq, Repr

/-- One newline-delimited line received from gpsd before the deadline:
blank after stripping, undecodable JSON (json.loads raises and the line is
skipped), or a decoded record. -/
inductive GpsdLine
  | blank
  | badJson
  | msg (m : TpvMsg)
deriving DecidableEq, Repr

/-- Behaviour of one gpsd session: the connection attempt fails (or any
other exception reaches the outer handler), or it succeeds and the given
lines are received before the socket closes or the deadline expires.  A
timeout or an empty response is the session with the empty line list. -/
inductive GpsdSession
  | connectFail
  | session (lines : List GpsdLine)
deriving DecidableEq, Repr

/-- Fix extracted from one decoded record, per the body of the line loop of
get_fix_from_gpsd: only class TPV, mode at least 2 with lat and lon both
present yields a fix; the altitude is used only when present and mode is at
least 3, otherwise 0.0. -/
def tpvFix (m : TpvMsg) : Option (ℚ × ℚ × ℚ) :=
  if m.cls ≠ some "TPV" then none
  else
    let mode := m.mode.getD 0
    match m.lat, m.lon with
    | some la, some lo =>
        if 2 ≤ mode then
          some (la, lo,
            match m.alt with
            | some al => if 3 ≤ mode then al else 0
            | none => 0)
        else none
    | _, _ => none

/-- Scan the received lines in order, returning the first fix found. -/
def scanLines : List GpsdLine → Option (ℚ × ℚ × ℚ)
  | [] => none
  | GpsdLine.blank :: ls => scanLines ls
  | GpsdLine.badJson :: ls => scanLines ls
  | GpsdLine.msg m :: ls =>
      match tpvFix m with
      | some f => some f
      | none => scanLines ls

/-- Model of get_fix_from_gpsd(host, port, timeout_s): returns the first
sufficient fix from the session, none on empty host, connection failure,
timeout, or when no received line yields a fix.  The port and timeout only
shape which lines arrive, which the session oracle already records. -/
def get_fix_from_gpsd (host : String) (_port : ℤ) (_timeout_s : ℤ)
    (sess : GpsdSession) : Option (ℚ × ℚ × ℚ) :=
  if host = "" then none
  else
    match sess with
    | GpsdSession.connectFail => none
    | GpsdSession.session lines => scanLines lines

/-! ## Timezone lookup (brightness.py, lookup_timezone) -/

/-- Model of lookup_timezone(lat, lon): none when timezonefinder is not
importable, none when timezone_at returns a falsy value or raises (the
oracle tzAt records what timezone_at would return, none covering both the
None result and a raised exception), and the name otherwise.  The source
returns tz_name only under `if tz_name:`, so an empty string also becomes
none. -/
def lookup_timezone (finderAvail : Bool) (tzAt : ℚ → ℚ → Option String)
    (lat lon : ℚ) : Option String :=
  if finderAvail = false then none
  else
    match tzAt lat lon with
    | some z => if z = "" then none else some z
    | none => none

/-! ## Publisher main loop (brightness.py, main and publish_data) -/

/-- Static configuration read from the environment at module load, the
fields of brightness.py that the main loop and publish_data consult. -/
structure Config where
  LATITUDE : ℚ
  LONGITUDE : ℚ
  ALTITUDE : ℚ
  TZ : String
  GPSD_HOST : String
  GPSD_PORT : ℤ
  GPSD_TIMEOUT_S : ℤ
  GPSD_REFRESH_S : ℤ

/-- The pvlib Location object built by main: Location(lat, lon, tz, alt)
with an optional name ("Home" at startup, the library default on refresh). -/
structure PvLocation where
  latitude : ℚ
  longitude : ℚ
  tz : String
  altitude : ℚ
  name : Option String
deriving DecidableEq, Repr

/-- Mutable state of main across loop iterations: the active lat, lon, alt
and tz locals, the constructed Location object, and last_gpsd_check. -/
structure LoopState where
  lat : ℚ
  lon : ℚ
  alt : ℚ
  tz : String
  loc : PvLocation
  last_gpsd_check : ℚ

/-- Inputs one loop iteration draws from the outside world: the clock, the
connection flag set by the MQTT callbacks, the gpsd session behaviour were
a refresh attempted, and the timezonefinder availability and oracle. -/
structure TickEnv where
  now : ℚ
  connected : Bool
  sess : GpsdSession
  finderAvail : Bool
  tzAt : ℚ → ℚ → Option String

/-- Inputs of the startup phase of main before the loop (initial gpsd fix). -/
structure InitEnv where
  now : ℚ
  sess : GpsdSession
  finderAvail : Bool
  tzAt : ℚ → ℚ → Option String

/-- The location-dependent inputs of one published irradiance sample, as
publish_data wires them: the timestamp and its timezone from the tz
argument, the solar-position inputs from the loc argument, but the Linke
turbidity lookup coordinates and the ineichen altitude from the static
module globals LATITUDE, LONGITUDE, ALTITUDE. -/
structure IrrSample where
  ts : ℚ
  tsTz : String
  solLat : ℚ
  solLon : ℚ
  solAlt : ℚ
  solTz : String
  turbLat : ℚ
  turbLon : ℚ
  csAlt : ℚ
deriving DecidableEq, Repr

/-- Observable side effects of one loop iteration. -/
inductive Effect
  | publishIrr (s : IrrSample)
  | heartbeatWrite (t : ℚ)
  | logSkipPublish
  | logRefreshFail
deriving DecidableEq, Repr

/-- The sample publish_data assembles: the timestamp pd.Timestamp.now(tz=tz)
and its timezone from the tz argument, the solar-position inputs from the
loc argument, the lookup_linke_turbidity coordinates from the module
globals LATITUDE and LONGITUDE, and the ineichen altitude from the module
global ALTITUDE. -/
def sampleOf (cfg : Config) (loc : PvLocation) (tz : String) (now : ℚ) :
    IrrSample :=
  { ts := now, tsTz := tz,
    solLat := loc.latitude, solLon := loc.longitude,
    solAlt := loc.altitude, solTz := loc.tz,
    turbLat := cfg.LATITUDE, turbLon := cfg.LONGITUDE,
    csAlt := cfg.ALTITUDE }

/-- Model of publish_data(loc, tz): publish the sample on BASE_TOPIC, then
write time.time() to the heartbeat file.  The pvlib pipeline is opaque; the
sample records which location values feed it. -/
def publish_data (cfg : Config) (loc : PvLocation) (tz : String) (now : ℚ) :
    List Effect :=
  [Effect.publishIrr (sampleOf cfg loc tz now), Effect.heartbeatWrite now]

/-- Python truthiness applied to the gps_tz result in main (`if gps_tz:`):
keep the old timezone unless a nonempty name came back. -/
def applyTz (old : String) (g : Option String) : String :=
  match g with
  | some z => if z = "" then old else z
  | none => old

/-- The periodic gpsd refresh at the top of the while loop: when a gpsd
host is configured and GPSD_REFRESH_S has elapsed, attempt a fix;
last_gpsd_check is set to the current time whether or not the fix
succeeds; on success the lat, lon, alt, tz locals and the Location object
are all rebuilt before anything is published. -/
def refreshStep (cfg : Config) (st : LoopState) (env : TickEnv) :
    LoopState × List Effect :=
  if cfg.GPSD_HOST ≠ "" ∧ (cfg.GPSD_REFRESH_S : ℚ) ≤ env.now - st.last_gpsd_check then
    match get_fix_from_gpsd cfg.GPSD_HOST cfg.GPSD_PORT cfg.GPSD_TIMEOUT_S env.sess with
    | some (la, lo, al) =>
        let tz := applyTz st.tz (lookup_timezone env.finderAvail env.tzAt la lo)
        ({ lat := la, lon := lo, alt := al, tz := tz,
           loc := { latitude := la, longitude := lo, tz := tz, altitude := al,
                    name := none },
           last_gpsd_check := env.now }, [])
    | none => ({ st with last_gpsd_check := env.now }, [Effect.logRefreshFail])
  else (st, [])

/-- One iteration of the while loop of main: optional gpsd refresh, then
publish_data when the connection flag is set, else a skip log line. -/
def tick (cfg : Config) (st : LoopState) (env : TickEnv) :
    LoopState × List Effect :=
  let r := refreshStep cfg st env
  let effs :=
    if env.connected then publish_data cfg r.1.loc r.1.tz env.now
    else [Effect.logSkipPublish]
  (r.1, r.2 ++ effs)

/-- Run the loop over a finite sequence of iteration environments,
accumulating effects. -/
def runTicks (cfg : Config) (st : LoopState) : List TickEnv → LoopState × List Effect
  | [] => (st, [])
  | e :: es =>
      let r := tick cfg st e
      let rest := runTicks cfg r.1 es
      (rest.1, r.2 ++ rest.2)

/-- Startup phase of main (lines before the loop): lat, lon, alt, tz start
from the env configuration; when GPSD_HOST is set an initial fix is
attempted, on success replacing the coordinates and, when the lookup gives
a nonempty name, the timezone; last_gpsd_check becomes the current time
after any attempt, else stays 0.0; the Location is then built with name
"Home". -/
def initState (cfg : Config) (env : InitEnv) : LoopState :=
  let static : LoopState :=
    { lat := cfg.LATITUDE, lon := cfg.LONGITUDE, alt := cfg.ALTITUDE,
      tz := cfg.TZ,
      loc := { latitude := cfg.LATITUDE, longitude := cfg.LONGITUDE,
               tz := cfg.TZ, altitude := cfg.ALTITUDE, name := some "Home" },
      last_gpsd_check := 0 }
  if cfg.GPSD_HOST ≠ "" then
    match get_fix_from_gpsd cfg.GPSD_HOST cfg.GPSD_PORT cfg.GPSD_TIMEOUT_S env.sess with
    | some (la, lo, al) =>
        let tz := applyTz cfg.TZ (lookup_timezone env.finderAvail env.tzAt la lo)
        { lat := la, lon := lo, alt := al, tz := tz,
          loc := { latitude := la, longitude := lo, tz := tz, altitude := al,
                   name := some "Home" },
          last_gpsd_check := env.now }
    | none => { static with last_gpsd_check := env.now }
  else static

/-- Irradiance samples published by a list of effects, in order. -/
def publishedSamples (effs : List Effect) : List IrrSample :=
  effs.filterMap fun e =>
    match e with
    | Effect.publishIrr s => some s
    | _ => none

/-- Heartbeat-file writes performed by a list of effects, in order. -/
def heartbeatWrites (effs : List Effect) : List ℚ :=
  effs.filterMap fun e =>
    match e with
    | Effect.heartbeatWrite t => some t
    | _ => none

/-! ## Signal handling (brightness.py, handler) -/

/-- Observable actions of the shutdown handler. -/
inductive SigEffect
  | publishOffline
  | disconnect
  | loopStop
deriving DecidableEq, Repr

/-- Model of handler(signum, frame): try to publish the retained offline
availability message, ignoring any exception; then disconnect, stop the
network loop, and sys.exit(signum).  Returns the effect list and the exit
status. -/
def handler (signum : ℤ) (publishRaises : Bool) : List SigEffect × ℤ :=
  ((if publishRaises then [] else [SigEffect.publishOffline]) ++
    [SigEffect.disconnect, SigEffect.loopStop], signum)

/-- Outcome of delivering a signal to the process: the registered handler
runs and the process exits normally with the returned status, or the
signal keeps its default disposition (for a termination signal, the kernel
kills the process; no handler code runs). -/
inductive SignalOutcome
  | handled (effects : List SigEffect) (exitStatus : ℤ)
  | defaultDisposition (signum : ℤ)
deriving DecidableEq, Repr

/-- POSIX signal number of SIGINT. -/
def SIGINT : ℤ := 2

/-- POSIX signal number of SIGTERM. -/
def SIGTERM : ℤ := 15

/-- Signals for which brightness.py installs handler: the single
signal.signal(signal.SIGINT, handler) call at module load. -/
def registeredSignals : List ℤ := [SIGINT]

/-- Deliver a signal to the publisher process: run handler for a registered
signal (the SystemExit from sys.exit propagates past the except Exception
clause at the bottom of the module, so the process exits with signum),
default disposition otherwise. -/
def deliverSignal (signum : ℤ) (publishRaises : Bool) : SignalOutcome :=
  if signum ∈ registeredSignals then
    SignalOutcome.handled (handler signum publishRaises).1 (handler signum publishRaises).2
  else SignalOutcome.defaultDisposition signum

/-- Whether the outcome of a signal delivery included a successful publish
of the offline availability message. -/
def offlinePublished (o : SignalOutcome) : Bool :=
  match o with
  | SignalOutcome.handled effs _ => effs.contains SigEffect.publishOffline
  | SignalOutcome.defaultDisposition _ => false

/-- Whether the outcome of a signal delivery is a normal process exit with
status equal to the given signal number. -/
def exitsWithSignum (o : SignalOutcome) (n : ℤ) : Bool :=
  match o with
  | SignalOutcome.handled _ code => code = n
  | SignalOutcome.defaultDisposition _ => false

/-! ## Theorems: health-check claims -/

/-- C2: the health-check returns a non-zero exit code with a diagnostic on
the error stream when the heartbeat file is missing, when its content
cannot be read as a timestamp, or when the recorded timestamp's age
exceeds the configured maximum age; it returns zero only if the age check
and, when the TCP probe is enabled, the broker-reachability check both
pass. -/
theorem C2_healthcheck_exit (e : HealthEnv) :
    (e.hbExists = false →
      (healthMain e).1 ≠ 0 ∧ (healthMain e).2 = some HCDiag.noHeartbeat)
    ∧ (e.hbExists = true → hbLast e.hbRead = none →
      (healthMain e).1 ≠ 0 ∧ (healthMain e).2 = some HCDiag.badHeartbeat)
    ∧ (∀ last, e.hbExists = true → hbLast e.hbRead = some last →
      e.now - last > (e.maxAge : ℚ) →
      (healthMain e).1 ≠ 0 ∧ (healthMain e).2 = some HCDiag.staleHeartbeat)
    ∧ ((healthMain e).1 = 0 →
      (∃ last, hbLast e.hbRead = some last ∧ e.now - last ≤ (e.maxAge : ℚ))
      ∧ (e.tcpEnabled = true → e.mqttHost ≠ "" → e.tcpReachable = true)) := by
  refine ⟨fun h => ?_, fun h1 h2 => ?_, fun last h1 h2 h3 => ?_, fun h => ?_⟩
  · simp [healthMain, h]
  · simp [healthMain, h1, h2]
  · simp [healthMain, h1, h2, h3]
  · unfold healthMain at h
    split at h
    · simp at h
    · rcases hm : hbLast e.hbRead with _ | last
      · rw [hm] at h; simp at h
      · rw [hm] at h
        by_cases hage : e.now - last > (e.maxAge : ℚ)
        · simp [hage] at h
        · refine ⟨⟨last, hm ▸ rfl, not_lt.mp hage⟩, fun htcp hhost => ?_⟩
          by_cases hr : e.tcpReachable
          · exact hr
          · simp [hage, htcp, hhost, hr] at h

/-- Health-check environment with a missing heartbeat file. -/
def hcEnvMissing : HealthEnv :=
  { hbExists := false, hbRead := none, now := 100, maxAge := 180,
    tcpEnabled := true, mqttHost := "broker", tcpReachable := true }

/-- Witness for C2 at a concrete environment with a missing heartbeat file. -/
theorem C2_healthcheck_exit_witness :
    (healthMain hcEnvMissing).1 ≠ 0 ∧
    (healthMain hcEnvMissing).2 = some HCDiag.noHeartbeat :=
  (C2_healthcheck_exit hcEnvMissing).1 rfl

/-- C10: when the heartbeat file exists but its content is empty or only
whitespace, the health-check treats the recorded timestamp as 0 rather
than reporting a read or parse error, so for a current time greater than
the configured maximum age it fails with the stale-heartbeat diagnostic. -/
theorem C10_empty_heartbeat (e : HealthEnv) (c : String)
    (h1 : e.hbExists = true) (h2 : e.hbRead = some c) (h3 : pyStrip c = "")
    (h4 : e.now > (e.maxAge : ℚ)) :
    healthMain e = (1, some HCDiag.staleHeartbeat) := by
  have hl : hbLast e.hbRead = some 0 := by
    rw [h2]
    simp only [hbLast, h3, ite_true]
    unfold parseFloat
    rw [show "0".toList = ['0'] from rfl]
    simp [List.takeWhile, List.dropWhile, decDigitsVal]
  simp only [healthMain, h1, hl]
  simp only [sub_zero]
  rw [if_neg (by simp [h1]), if_pos h4]

/-- Health-check environment whose heartbeat file holds only whitespace. -/
def hcEnvBlank : HealthEnv :=
  { hbExists := true, hbRead := some "  \n", now := 200, maxAge := 180,
    tcpEnabled := true, mqttHost := "broker", tcpReachable := true }

/-- Witness for C10 at a concrete environment whose heartbeat file holds a
blank line and whose current time exceeds the maximum age. -/
theorem C10_empty_heartbeat_witness :
    healthMain hcEnvBlank = (1, some HCDiag.staleHeartbeat) :=
  C10_empty_heartbeat hcEnvBlank "  \n" rfl rfl (by decide) (by norm_num [hcEnvBlank])

/-! ## Theorems: location-resolver claims -/

/-- Scanning a line list in which no line yields a fix returns none. -/
theorem scanLines_eq_none (lines : List GpsdLine)
    (h : ∀ l ∈ lines, l = GpsdLine.blank ∨ l = GpsdLine.badJson ∨
      ∃ m, l = GpsdLine.msg m ∧ tpvFix m = none) :
    scanLines lines = none := by
  induction lines with
  | nil => rfl
  | cons l ls ih =>
    have hl := h l (by simp)
    have hrest : scanLines ls = none := ih fun x hx => h x (by simp [hx])
    rcases hl with h1 | h1 | ⟨m, hm, hfix⟩
    · subst h1; simpa [scanLines] using hrest
    · subst h1; simpa [scanLines] using hrest
    · subst hm; simpa [scanLines, hfix] using hrest

/-- Any fix returned by a scan comes from some received record. -/
theorem scanLines_fix (lines : List GpsdLine) (f : ℚ × ℚ × ℚ)
    (h : scanLines lines = some f) :
    ∃ m, GpsdLine.msg m ∈ lines ∧ tpvFix m = some f := by
  induction lines with
  | nil => simp [scanLines] at h
  | cons l ls ih =>
    cases l with
    | blank =>
      obtain ⟨m, hm, hf⟩ := ih (by simpa [scanLines] using h)
      exact ⟨m, by simp [hm], hf⟩
    | badJson =>
      obtain ⟨m, hm, hf⟩ := ih (by simpa [scanLines] using h)
      exact ⟨m, by simp [hm], hf⟩
    | msg m =>
      unfold scanLines at h
      cases hfix : tpvFix m with
      | some g =>
        rw [hfix] at h
        refine ⟨m, by simp, ?_⟩
        rw [hfix]
        simpa using h
      | none =>
        rw [hfix] at h
        obtain ⟨m2, hm2, hf2⟩ := ih (by simpa using h)
        exact ⟨m2, by simp [hm2], hf2⟩

/-- C5: for every host, port and timeout and every failure behaviour of the
gpsd service — connection failure, timeout or empty response (the session
with no received lines), or only blank, malformed or fixless records — the
resolver get_fix_from_gpsd returns none; no behaviour raises to the
caller, which the totality of the embedded function reflects (the outer
exception handler of the source maps every escape to None). -/
theorem C5_resolver_never_raises (host : String) (port timeout_s : ℤ)
    (sess : GpsdSession) :
    (sess = GpsdSession.connectFail →
      get_fix_from_gpsd host port timeout_s sess = none)
    ∧ (sess = GpsdSession.session [] →
      get_fix_from_gpsd host port timeout_s sess = none)
    ∧ (∀ lines, sess = GpsdSession.session lines →
      (∀ l ∈ lines, l = GpsdLine.blank ∨ l = GpsdLine.badJson ∨
        ∃ m, l = GpsdLine.msg m ∧ tpvFix m = none) →
      get_fix_from_gpsd host port timeout_s sess = none) := by
  refine ⟨fun h => ?_, fun h => ?_, fun lines h hl => ?_⟩
  · subst h; by_cases hh : host = "" <;> simp [get_fix_from_gpsd, hh]
  · subst h; by_cases hh : host = "" <;> simp [get_fix_from_gpsd, hh, scanLines]
  · subst h
    by_cases hh : host = "" <;> simp [get_fix_from_gpsd, hh, scanLines_eq_none lines hl]

/-- Witness for C5 at a session delivering a single malformed record. -/
theorem C5_resolver_never_raises_witness :
    get_fix_from_gpsd "gpsd" 2947 5 (GpsdSession.session [GpsdLine.badJson]) = none :=
  (C5_resolver_never_raises "gpsd" 2947 5 _).2.2 [GpsdLine.badJson] rfl
    (fun l hl => Or.inr (Or.inl (by simpa using hl)))

/-- C6: a fix is returned only from a received record of class TPV with
mode at least 2 that contains both lat and lon; the returned altitude is
the record's altitude only when the record has one and mode is at least 3,
and is 0 whenever mode is exactly 2 or the altitude is absent. -/
theorem C6_fix_quality (host : String) (port timeout_s : ℤ)
    (sess : GpsdSession) (la lo al : ℚ)
    (h : get_fix_from_gpsd host port timeout_s sess = some (la, lo, al)) :
    ∃ lines, sess = GpsdSession.session lines ∧
      ∃ m, GpsdLine.msg m ∈ lines ∧ m.cls = some "TPV" ∧ 2 ≤ m.mode.getD 0 ∧
        m.lat = some la ∧ m.lon = some lo ∧
        al = (match m.alt with
              | some a => if 3 ≤ m.mode.getD 0 then a else 0
              | none => 0) ∧
        ((m.mode.getD 0 = 2 ∨ m.alt = none) → al = 0) := by
  unfold get_fix_from_gpsd at h
  by_cases hh : host = ""
  · simp [hh] at h
  · rw [if_neg hh] at h
    cases sess with
    | connectFail => simp at h
    | session lines =>
      refine ⟨lines, rfl, ?_⟩
      obtain ⟨m, hm, hfix⟩ := scanLines_fix lines _ h
      unfold tpvFix at hfix
      by_cases hcls : m.cls = some "TPV"
      · rw [if_neg (by simp [hcls])] at hfix
        cases hlat : m.lat with
        | none => rw [hlat] at hfix; simp at hfix
        | some la2 =>
          cases hlon : m.lon with
          | none => rw [hlat, hlon] at hfix; simp at hfix
          | some lo2 =>
            rw [hlat, hlon] at hfix
            dsimp only at hfix
            by_cases hmode : 2 ≤ m.mode.getD 0
            · rw [if_pos hmode] at hfix
              simp only [Option.some.injEq, Prod.mk.injEq] at hfix
              obtain ⟨h1, h2, h3⟩ := hfix
              refine ⟨m, hm, hcls, hmode, by rw [hlat, h1], by rw [hlon, h2], h3.symm, ?_⟩
              intro hcase
              rcases hcase with hc | hc
              · rw [← h3]
                cases halt : m.alt with
                | none => rfl
                | some a => simp [hc]
              · rw [← h3, hc]
            · rw [if_neg hmode] at hfix; simp at hfix
      · rw [if_pos (by simp [hcls])] at hfix; simp at hfix

/-- A gpsd session carrying one 3D TPV record. -/
def sess3D : GpsdSession :=
  GpsdSession.session
    [GpsdLine.msg { cls := some "TPV", mode := some 3,
                    lat := some 1, lon := some 2, alt := some 5 }]

/-- Witness for C6 at a session with a concrete 3D fix. -/
theorem C6_fix_quality_witness :
    ∃ lines, sess3D = GpsdSession.session lines ∧
      ∃ m, GpsdLine.msg m ∈ lines ∧ m.cls = some "TPV" ∧ 2 ≤ m.mode.getD 0 ∧
        m.lat = some 1 ∧ m.lon = some 2 ∧
        (5 : ℚ) = (match m.alt with
              | some a => if 3 ≤ m.mode.getD 0 then a else 0
              | none => 0) ∧
        ((m.mode.getD 0 = 2 ∨ m.alt = none) → (5 : ℚ) = 0) :=
  C6_fix_quality "gpsd" 2947 5 sess3D 1 2 5 (by decide)

/-! ## Theorems: publish-loop claims -/

/-- Published samples distribute over effect-list concatenation. -/
theorem publishedSamples_append (a b : List Effect) :
    publishedSamples (a ++ b) = publishedSamples a ++ publishedSamples b := by
  simp [publishedSamples]

/-- Heartbeat writes distribute over effect-list concatenation. -/
theorem heartbeatWrites_append (a b : List Effect) :
    heartbeatWrites (a ++ b) = heartbeatWrites a ++ heartbeatWrites b := by
  simp [heartbeatWrites]

/-- The refresh step neither publishes nor writes the heartbeat file. -/
theorem refreshStep_effects (cfg : Config) (st : LoopState) (env : TickEnv) :
    publishedSamples (refreshStep cfg st env).2 = [] ∧
    heartbeatWrites (refreshStep cfg st env).2 = [] := by
  unfold refreshStep
  split
  · split <;> simp [publishedSamples, heartbeatWrites]
  · simp [publishedSamples, heartbeatWrites]

/-- A connected tick publishes exactly the one sample assembled from the
post-refresh state at the tick's own time. -/
theorem tick_publishes_connected (cfg : Config) (st : LoopState) (env : TickEnv)
    (h : env.connected = true) :
    publishedSamples (tick cfg st env).2 =
      [sampleOf cfg (refreshStep cfg st env).1.loc (refreshStep cfg st env).1.tz
        env.now] := by
  unfold tick
  dsimp only
  rw [publishedSamples_append, (refreshStep_effects cfg st env).1, h]
  simp [publish_data, publishedSamples]

/-- A disconnected tick publishes nothing. -/
theorem tick_publishes_disconnected (cfg : Config) (st : LoopState) (env : TickEnv)
    (h : env.connected = false) :
    publishedSamples (tick cfg st env).2 = [] := by
  unfold tick
  dsimp only
  rw [publishedSamples_append, (refreshStep_effects cfg st env).1, h]
  simp [publishedSamples]

/-- A run of disconnected ticks publishes nothing at all. -/
theorem runTicks_no_publish (cfg : Config) (st : LoopState) (envs : List TickEnv)
    (h : ∀ e ∈ envs, e.connected = false) :
    publishedSamples (runTicks cfg st envs).2 = [] := by
  induction envs generalizing st with
  | nil => rfl
  | cons e es ih =>
    unfold runTicks
    dsimp only
    rw [publishedSamples_append, tick_publishes_disconnected cfg st e (h e (by simp)),
      ih _ fun x hx => h x (by simp [hx])]
    rfl

/-- C1 amended: on each tick of the main loop the current wall-clock time is
written to the heartbeat file exactly when the connection flag is true (the
write lives inside publish_data); on a tick whose publish is skipped because
the flag is false, the heartbeat file is not written. -/
theorem C1_heartbeat_iff_connected (cfg : Config) (st : LoopState) (env : TickEnv) :
    heartbeatWrites (tick cfg st env).2 =
      if env.connected = true then [env.now] else [] := by
  unfold tick
  dsimp only
  rw [heartbeatWrites_append, (refreshStep_effects cfg st env).2]
  cases hc : env.connected <;> simp [publish_data, heartbeatWrites]

/-- Configuration with no gpsd host and zeroed static location. -/
def cfgStatic : Config :=
  { LATITUDE := 0, LONGITUDE := 0, ALTITUDE := 0, TZ := "UTC",
    GPSD_HOST := "", GPSD_PORT := 2947, GPSD_TIMEOUT_S := 5, GPSD_REFRESH_S := 900 }

/-- Startup environment with nothing to resolve. -/
def ienvStatic : InitEnv :=
  { now := 0, sess := GpsdSession.session [], finderAvail := false,
    tzAt := fun _ _ => none }

/-- A tick at which the MQTT connection flag is false. -/
def envSkip : TickEnv :=
  { now := 60, connected := false, sess := GpsdSession.session [],
    finderAvail := false, tzAt := fun _ _ => none }

/-- A later tick at which the MQTT connection flag is true. -/
def envPub : TickEnv :=
  { now := 120, connected := true, sess := GpsdSession.session [],
    finderAvail := false, tzAt := fun _ _ => none }

/-- C1 counterexample: on a concrete disconnected tick the loop performs no
heartbeat write at all, refuting the claim that the wall-clock time is
written to the heartbeat file on every tick whether or not a message was
published. -/
theorem C1_heartbeat_counterexample :
    heartbeatWrites (tick cfgStatic (initState cfgStatic ienvStatic) envSkip).2 = [] := by
  rfl

/-- C3: at a tick where the connection flag is false the publish is skipped
(the tick is a total function and emits no sample), the missed sample is
not queued or retried across any further disconnected ticks (a disconnected
run publishes nothing), and the next tick at which the flag is true
publishes exactly one sample, assembled at that tick's own wall-clock time. -/
theorem C3_skip_drop_then_publish (cfg : Config) (st : LoopState)
    (env envNext : TickEnv) (skips : List TickEnv)
    (h : env.connected = false) (hs : ∀ e ∈ skips, e.connected = false)
    (hn : envNext.connected = true) :
    publishedSamples (tick cfg st env).2 = [] ∧
    publishedSamples (runTicks cfg st (env :: skips)).2 = [] ∧
    publishedSamples (tick cfg (runTicks cfg st (env :: skips)).1 envNext).2 =
      [sampleOf cfg
        (refreshStep cfg (runTicks cfg st (env :: skips)).1 envNext).1.loc
        (refreshStep cfg (runTicks cfg st (env :: skips)).1 envNext).1.tz
        envNext.now] := by
  refine ⟨tick_publishes_disconnected cfg st env h,
    runTicks_no_publish cfg st _ ?_,
    tick_publishes_connected cfg _ envNext hn⟩
  intro e he
  rcases List.mem_cons.mp he with rfl | hmem
  · exact h
  · exact hs e hmem

/-- Witness for C3: a concrete disconnected tick followed by a concrete
connected tick. -/
theorem C3_skip_drop_then_publish_witness :
    publishedSamples (tick cfgStatic (initState cfgStatic ienvStatic) envSkip).2 = [] ∧
    publishedSamples
      (runTicks cfgStatic (initState cfgStatic ienvStatic) [envSkip]).2 = [] ∧
    publishedSamples
      (tick cfgStatic
        (runTicks cfgStatic (initState cfgStatic ienvStatic) [envSkip]).1 envPub).2 =
      [sampleOf cfgStatic
        (refreshStep cfgStatic
          (runTicks cfgStatic (initState cfgStatic ienvStatic) [envSkip]).1 envPub).1.loc
        (refreshStep cfgStatic
          (runTicks cfgStatic (initState cfgStatic ienvStatic) [envSkip]).1 envPub).1.tz
        envPub.now] :=
  C3_skip_drop_then_publish cfgStatic (initState cfgStatic ienvStatic) envSkip envPub []
    rfl (by simp) rfl

/-- Configuration with a gpsd host and zeroed static location. -/
def cfgGpsd : Config :=
  { LATITUDE := 0, LONGITUDE := 0, ALTITUDE := 0, TZ := "UTC",
    GPSD_HOST := "gpsd", GPSD_PORT := 2947, GPSD_TIMEOUT_S := 5, GPSD_REFRESH_S := 900 }

/-- Startup environment whose initial gpsd connection fails, so the static
configuration stays active and last_gpsd_check becomes 0. -/
def ienvFail : InitEnv :=
  { now := 0, sess := GpsdSession.connectFail, finderAvail := true,
    tzAt := fun _ _ => some "America/New_York" }

/-- Loop state after the failed initial fix. -/
def stGpsd : LoopState := initState cfgGpsd ienvFail

/-- A gpsd line carrying a 3D TPV fix at latitude 43, longitude -73,
altitude 121. -/
def fixLine : GpsdLine :=
  GpsdLine.msg { cls := some "TPV", mode := some 3,
                 lat := some 43, lon := some (-73), alt := some 121 }

/-- A connected tick at which the refresh interval has elapsed and the gpsd
session delivers the 3D fix. -/
def envRefresh : TickEnv :=
  { now := 900, connected := true, sess := GpsdSession.session [fixLine],
    finderAvail := true, tzAt := fun _ _ => some "America/New_York" }

/-- C4 (evaluation at the failing input): after a successful gpsd refresh
from the static location (0, 0, 0) to the resolved fix (43, -73, 121), the
very sample the loop publishes takes its solar-position latitude,
longitude, altitude and timezone from the new resolution but its
Linke-turbidity coordinates and its clear-sky altitude from the static
module globals (0, 0 and 0), so the published sample mixes values of two
different resolutions, contradicting the claim that every published sample
uses latitude, longitude, altitude and timezone from a single resolution:
publish_data reads the globals LATITUDE, LONGITUDE, ALTITUDE instead of
the refreshed active location. -/
theorem C4_mixed_resolution_sample :
    publishedSamples (tick cfgGpsd stGpsd envRefresh).2 =
      [{ ts := 900, tsTz := "America/New_York",
         solLat := 43, solLon := -73, solAlt := 121,
         solTz := "America/New_York",
         turbLat := 0, turbLon := 0, csAlt := 0 }] ∧
    (43 : ℚ) ≠ 0 ∧ (121 : ℚ) ≠ 0 := by
  refine ⟨?_, by norm_num, by norm_num⟩
  rw [tick_publishes_connected cfgGpsd stGpsd envRefresh rfl]
  norm_num [refreshStep, stGpsd, initState, cfgGpsd, ienvFail, envRefresh,
    get_fix_from_gpsd, scanLines, tpvFix, fixLine, lookup_timezone, applyTz,
    sampleOf, (by decide : ¬("gpsd" : String) = ""),
    (by decide : ¬("America/New_York" : String) = "")]

/-- A returned fix implies the configured host was nonempty. -/
theorem get_fix_host_ne_empty {host : String} {port t : ℤ} {sess : GpsdSession}
    {f : ℚ × ℚ × ℚ} (h : get_fix_from_gpsd host port t sess = some f) :
    ¬host = "" := by
  intro hh
  unfold get_fix_from_gpsd at h
  rw [if_pos hh] at h
  exact absurd h (by simp)

/-- The timezone lookup never returns the empty name. -/
theorem lookup_timezone_ne_empty {fa : Bool} {tzAt : ℚ → ℚ → Option String}
    {la lo : ℚ} {z : String}
    (h : lookup_timezone fa tzAt la lo = some z) : ¬z = "" := by
  unfold lookup_timezone at h
  split at h
  · exact absurd h (by simp)
  · cases htz : tzAt la lo with
    | none => rw [htz] at h; simp at h
    | some w =>
      rw [htz] at h
      dsimp only at h
      by_cases hw : w = ""
      · rw [if_pos hw] at h; simp at h
      · rw [if_neg hw] at h
        injection h with h2
        exact h2 ▸ hw

/-- Applying a nonempty looked-up timezone replaces the active one. -/
theorem applyTz_some {old z : String} (hz : ¬z = "") :
    applyTz old (some z) = z := by
  simp [applyTz, hz]

/-- C7: whenever a location fix is obtained — at startup or at a periodic
refresh tick — the active timezone becomes the timezone the lookup
resolves from the fix's coordinates, and when the lookup fails or returns
nothing the previously active timezone is retained unchanged. -/
theorem C7_timezone_follows_fix (cfg : Config) (st : LoopState) (env : TickEnv)
    (ienv : InitEnv) (la lo al : ℚ) :
    (get_fix_from_gpsd cfg.GPSD_HOST cfg.GPSD_PORT cfg.GPSD_TIMEOUT_S ienv.sess
        = some (la, lo, al) →
      (∀ z, lookup_timezone ienv.finderAvail ienv.tzAt la lo = some z →
        (initState cfg ienv).tz = z)
      ∧ (lookup_timezone ienv.finderAvail ienv.tzAt la lo = none →
        (initState cfg ienv).tz = cfg.TZ))
    ∧ ((cfg.GPSD_REFRESH_S : ℚ) ≤ env.now - st.last_gpsd_check →
      get_fix_from_gpsd cfg.GPSD_HOST cfg.GPSD_PORT cfg.GPSD_TIMEOUT_S env.sess
        = some (la, lo, al) →
      (∀ z, lookup_timezone env.finderAvail env.tzAt la lo = some z →
        (tick cfg st env).1.tz = z)
      ∧ (lookup_timezone env.finderAvail env.tzAt la lo = none →
        (tick cfg st env).1.tz = st.tz)) := by
  constructor
  · intro hfix
    have hh := get_fix_host_ne_empty hfix
    unfold initState
    rw [if_pos hh, hfix]
    dsimp only
    constructor
    · intro z hz
      rw [hz, applyTz_some (lookup_timezone_ne_empty hz)]
    · intro hz
      rw [hz]
      rfl
  · intro htime hfix
    have hh := get_fix_host_ne_empty hfix
    have ht : (tick cfg st env).1 = (refreshStep cfg st env).1 := rfl
    rw [ht]
    unfold refreshStep
    rw [if_pos ⟨hh, htime⟩, hfix]
    dsimp only
    constructor
    · intro z hz
      rw [hz, applyTz_some (lookup_timezone_ne_empty hz)]
    · intro hz
      rw [hz]
      rfl

/-- Witness for C7 at the concrete refresh tick with a 3D fix: the active
timezone after the tick is the one resolved from the fix. -/
theorem C7_timezone_follows_fix_witness :
    (tick cfgGpsd stGpsd envRefresh).1.tz = "America/New_York" :=
  ((C7_timezone_follows_fix cfgGpsd stGpsd envRefresh ienvFail 43 (-73) 121).2
    (by norm_num [stGpsd, initState, cfgGpsd, ienvFail, envRefresh,
      get_fix_from_gpsd, (by decide : ¬("gpsd" : String) = "")])
    (by decide)).1 "America/New_York" (by decide)

/-- The active location variables and Location object of a loop state all
equal the statically configured values. -/
def isStaticState (cfg : Config) (st : LoopState) : Prop :=
  st.lat = cfg.LATITUDE ∧ st.lon = cfg.LONGITUDE ∧ st.alt = cfg.ALTITUDE ∧
  st.tz = cfg.TZ ∧ st.loc.latitude = cfg.LATITUDE ∧
  st.loc.longitude = cfg.LONGITUDE ∧ st.loc.altitude = cfg.ALTITUDE ∧
  st.loc.tz = cfg.TZ

/-- With no gpsd host configured, one tick leaves the loop state unchanged. -/
theorem tick_state_id_of_no_gpsd (cfg : Config) (st : LoopState) (env : TickEnv)
    (h : cfg.GPSD_HOST = "") : (tick cfg st env).1 = st := by
  have ht : (tick cfg st env).1 = (refreshStep cfg st env).1 := rfl
  rw [ht]
  unfold refreshStep
  rw [if_neg (by simp [h])]

/-- With no gpsd host configured, any run of ticks leaves the state
unchanged. -/
theorem runTicks_state_id_of_no_gpsd (cfg : Config) (st : LoopState)
    (envs : List TickEnv) (h : cfg.GPSD_HOST = "") :
    (runTicks cfg st envs).1 = st := by
  induction envs generalizing st with
  | nil => rfl
  | cons e es ih =>
    unfold runTicks
    dsimp only
    rw [tick_state_id_of_no_gpsd cfg st e h]
    exact ih st

/-- C8: when no gpsd host is configured, the active latitude, longitude,
altitude and timezone equal the statically configured values at every
point of the process lifetime — after startup and after any sequence of
loop iterations, whatever the connection flag, clock or oracles do. -/
theorem C8_static_location (cfg : Config) (ienv : InitEnv) (envs : List TickEnv)
    (h : cfg.GPSD_HOST = "") :
    isStaticState cfg (runTicks cfg (initState cfg ienv) envs).1 := by
  rw [runTicks_state_id_of_no_gpsd cfg _ envs h]
  unfold initState
  rw [if_neg (by simp [h])]
  exact ⟨rfl, rfl, rfl, rfl, rfl, rfl, rfl, rfl⟩

/-- Witness for C8 over a concrete two-tick run with no gpsd host. -/
theorem C8_static_location_witness :
    isStaticState cfgStatic
      (runTicks cfgStatic (initState cfgStatic ienvStatic) [envSkip, envPub]).1 :=
  C8_static_location cfgStatic ienvStatic [envSkip, envPub] rfl

/-! ## Theorems: shutdown claims -/

/-- C9 counterexample: SIGTERM is not among the registered signals (only
SIGINT is), so delivering SIGTERM leaves the default disposition: the
handler does not run, no offline availability message is published by the
process, and the process does not exit normally with status 15 — refuting
the claim for every termination signal. -/
theorem C9_sigterm_counterexample :
    deliverSignal SIGTERM false = SignalOutcome.defaultDisposition 15 ∧
    offlinePublished (deliverSignal SIGTERM false) = false ∧
    exitsWithSignum (deliverSignal SIGTERM false) 15 = false := by
  refine ⟨?_, ?_, ?_⟩ <;> rfl

/-- C9 amended: for SIGINT — the one termination signal the source
registers a handler for — the handler publishes the offline availability
message best-effort (a publish failure is swallowed and the shutdown
continues), disconnects, stops the network loop, and the process exits
with status equal to the signal number; other signals keep their default
disposition. -/
theorem C9_sigint_shutdown (publishRaises : Bool) :
    ∃ effs, deliverSignal SIGINT publishRaises = SignalOutcome.handled effs SIGINT ∧
      SigEffect.disconnect ∈ effs ∧ SigEffect.loopStop ∈ effs ∧
      (publishRaises = false → SigEffect.publishOffline ∈ effs) ∧
      exitsWithSignum (deliverSignal SIGINT publishRaises) SIGINT = true := by
  cases publishRaises with
  | false =>
    exact ⟨[SigEffect.publishOffline, SigEffect.disconnect, SigEffect.loopStop],
      rfl, by decide, by decide, fun _ => by decide, rfl⟩
  | true =>
    exact ⟨[SigEffect.disconnect, SigEffect.loopStop],
      rfl, by decide, by decide, fun hc => absurd hc (by decide), rfl⟩

/-- Witness for C9 amended: delivering SIGINT with a succeeding publish. -/
theorem C9_sigint_shutdown_witness :
    ∃ effs, deliverSignal SIGINT false = SignalOutcome.handled effs SIGINT ∧
      SigEffect.disconnect ∈ effs ∧ SigEffect.loopStop ∈ effs ∧
      (false = false → SigEffect.publishOffline ∈ effs) ∧
      exitsWithSignum (deliverSignal SIGINT false) SIGINT = true :=
  C9_sigint_shutdown false
